import Mathlib

/-!
Verification development for the rose-glass athletic/team coherence core.

The definitions below are a shallow embedding of the Python sources:

* `src/team_coherence/analyzers/__init__.py` — the regex fallback extractor
  (`BaseAnalyzer._extract_pattern_regex`) and `CISDAnalyzer.analyze`;
* `src/team_coherence/lenses/__init__.py` — `CulturalLens.interpret`,
  `CulturalLens._optimize_q`, the default lens library and
  `LensDeviationCalculator.calculate_deviation`;
* `src/athletic_coherence/core.py` — the five athletic dimension calculators and
  `PhysicalCoherenceScore._detect_systemic_flags`.

Python floats are embedded as exact rationals (every constant in the source is a
short decimal, so this is faithful as long as no irrational value appears);
`statistics.stdev` introduces a square root, embedded through `Real.sqrt` of the
rational sample variance.  Fallible code paths (`min([])`, `statistics.mean([])`
raise in Python) are embedded as `Option`, returning `none` exactly where the
Python raises.
-/

namespace RoseGlass

/-- Python's regex word-character class `\w` on the ASCII texts handled here:
letters, digits and underscore. -/
def isWordChar (c : Char) : Bool := c.isAlphanum || c == '_'

/-- Head match for one keyword regex `\b(alt1|alt2|...)\b`: the regex engine
tries the branches of the alternation in order and the first branch that is a
literal prefix of `l` *and* is followed by a word boundary (end of input or a
non-word character) matches; the result is the matched length.  The leading
`\b` is checked by the caller, which knows the previous character. -/
def altMatch (alts : List (List Char)) (l : List Char) : Option Nat :=
  alts.findSome? fun a =>
    if a.isPrefixOf l &&
        (match l.drop a.length with
         | [] => true
         | c :: _ => !isWordChar c) then
      some a.length
    else none

/-- Scanner behind `re.findall(r"\b(alt1|alt2|...)\b", text)`: scan left to
right, count non-overlapping matches, resume after each match.  `prev` is the
character just before the current position (`none` at the start of the text),
used for the leading word-boundary test.  The `fuel` argument only makes the
recursion structural; every step consumes at least one character, so fuel equal
to the text length (as supplied by `countMatches`) is never exhausted. -/
def countMatchesAux (alts : List (List Char)) : Nat → Option Char → List Char → Nat
  | 0, _, _ => 0
  | _ + 1, _, [] => 0
  | fuel + 1, prev, c :: rest =>
    let ok : Bool := match prev with
      | none => true
      | some pc => !isWordChar pc
    match (if ok then altMatch alts (c :: rest) else none) with
    | some len =>
        1 + countMatchesAux alts fuel (some ((c :: rest).getD (len - 1) c)) (rest.drop (len - 1))
    | none => countMatchesAux alts fuel (some c) rest

/-- Number of matches `re.findall(r"\b(alt1|alt2|...)\b", text)` returns. -/
def countMatches (alts : List (List Char)) (prev : Option Char) (l : List Char) : Nat :=
  countMatchesAux alts l.length prev l

/-- Match count of one keyword pattern (given by its alternation branches)
against a character list. -/
def countPat (alts : List String) (text : List Char) : Nat :=
  countMatches (alts.map String.toList) none text

/-- Does `needle` occur as a contiguous substring of the text?  This is
`re.search` for a plain (boundary-free) alternation branch. -/
def containsSub (needle : List Char) : List Char → Bool
  | [] => needle.isEmpty
  | c :: rest => needle.isPrefixOf (c :: rest) || containsSub needle rest

/-- `re.search(r"alt1|alt2|...", text) is not None`. -/
def containsAny (needles : List String) (text : List Char) : Bool :=
  needles.any fun n => containsSub n.toList text

/-- Python's `text.lower()` on the ASCII texts handled here. -/
def lowerChars (s : String) : List Char := s.toList.map Char.toLower

/-- Five-dimension output of an analyzer (`PatternResult` in
`team_coherence/analyzers/__init__.py`).  The advisory `notes` list (free text,
defaulting to empty) carries no data used anywhere and is not modelled. -/
structure PatternResult where
  psi : ℚ
  rho : ℚ
  q : ℚ
  f : ℚ
  tau : ℚ
  confidence : ℚ
  source_count : Nat
deriving DecidableEq

/-- `BaseAnalyzer._extract_pattern_regex`: the regex fallback text extractor.
Keyword families and constants are copied verbatim from the source; `0.1` is
`1/10`, `0.05` is `1/20`, and exclamation marks are counted on the original
(uncased) text exactly as `text.count('!')` does.  The unused local
`word_count` of the source is dropped. -/
def extract_pattern_regex (text : String) : PatternResult :=
  let tl := lowerChars text
  let isolation := countPat ["alone", "lonely", "isolated", "nobody", "no one"] tl
    + countPat ["by myself", "on my own"] tl
  let connection := countPat ["we", "us", "our", "together", "team"] tl
    + countPat ["support", "helped", "buddy", "brother", "sister"] tl
  let total := isolation + connection
  let f : ℚ := if 0 < total then (connection : ℚ) / (total : ℚ) else 1/2
  let activation := countPat ["stressed", "angry", "frustrated", "scared", "anxious"] tl
    + countPat ["worried", "tense", "overwhelmed", "exhausted"] tl
  let exclamations := text.toList.count '!'
  let q : ℚ := min (3/10 + (activation : ℚ) * (1/10) + (exclamations : ℚ) * (1/20)) 1
  let wisdom := countPat ["learned", "realized", "experience", "wisdom"] tl
    + countPat ["years", "before", "remember", "history"] tl
  let rho : ℚ := min (3/10 + (wisdom : ℚ) * (1/10)) 1
  let past := countPat ["was", "were", "used to", "before", "ago"] tl
  let present := countPat ["now", "today", "right now", "currently"] tl
  let tau : ℚ :=
    if present < past then min (1/2 + (past : ℚ) * (1/20)) 1
    else if past < present then max (1/2 - (present : ℚ) * (1/20)) (1/10)
    else 1/2
  { psi := 7/10, rho := rho, q := q, f := f, tau := tau,
    confidence := 3/5, source_count := 1 }

/-- Result of `CISDAnalyzer.analyze`.  The deduplicated lists of matched
indicator strings and the pass-through `facilitator_notes` field are not
modelled (no claim depends on them); the counts behind the two ratios are what
matters. -/
structure CISDAnalysisResult where
  processing_ratio : ℚ
  performance_ratio : ℚ
  environmental_concerns : List String
  pattern : PatternResult
deriving DecidableEq

/-- `CISDAnalyzer.PROCESSING_INDICATORS`: one entry per regex, each entry the
branches of its alternation. -/
def PROCESSING_INDICATORS : List (List String) :=
  [["realized", "understood", "felt", "struggled"],
   ["hard", "difficult", "challenging", "painful"],
   ["support", "helped", "talked", "shared"],
   ["processing", "working through", "dealing with"]]

/-- `CISDAnalyzer.PERFORMANCE_INDICATORS`. -/
def PERFORMANCE_INDICATORS : List (List String) :=
  [["fine", "okay", "good", "normal", "usual"],
   ["handled", "managed", "no problem"],
   ["moved on", "over it", "past it"],
   ["don't need", "unnecessary"]]

/-- `CISDAnalyzer.ENVIRONMENTAL_CONCERNS`: boundary-free search patterns paired
with the concern they raise. -/
def ENVIRONMENTAL_CONCERNS : List (List String × String) :=
  [(["career", "promotion", "evaluation"], "Career concerns may affect disclosure"),
   (["command", "leadership", "supervisor"], "Command presence may affect openness"),
   (["mandatory", "required", "ordered"], "Mandatory nature may reduce authenticity"),
   (["quiet", "silent", "uncomfortable"], "Unusual silence may indicate unsafe environment")]

/-- `CISDAnalyzer.analyze`: count processing and performance indicator matches
on the lowercased document, form the two ratios (defaulting to `0.5` each when
no indicator matches at all), collect environmental concerns by substring
search, and attach the regex-extracted pattern. -/
def cisd_analyze (doc : String) : CISDAnalysisResult :=
  let dl := lowerChars doc
  let processing := (PROCESSING_INDICATORS.map (fun p => countPat p dl)).sum
  let performance := (PERFORMANCE_INDICATORS.map (fun p => countPat p dl)).sum
  let total := processing + performance
  let pr : ℚ := if 0 < total then (processing : ℚ) / (total : ℚ) else 1/2
  let fr : ℚ := if 0 < total then (performance : ℚ) / (total : ℚ) else 1/2
  let concerns := ENVIRONMENTAL_CONCERNS.filterMap fun pc =>
    if containsAny pc.1 dl then some pc.2 else none
  { processing_ratio := pr, performance_ratio := fr,
    environmental_concerns := concerns, pattern := extract_pattern_regex doc }

/-- `LensParameters` from `team_coherence/lenses/__init__.py`, with the source's
defaults. -/
structure LensParameters where
  psi_weight : ℚ := 1
  rho_weight : ℚ := 1
  q_weight : ℚ := 1
  f_weight : ℚ := 1
  tau_weight : ℚ := 1
  q_baseline : ℚ := 1/2
  f_baseline : ℚ := 1/2
  psi_tolerance : ℚ := 3/10
  verbal_expression : ℚ := 1/2
  direct_communication : ℚ := 1/2
  collective_orientation : ℚ := 1/2
  km : ℚ := 3/10
  ki : ℚ := 2
deriving DecidableEq

/-- Output of `CulturalLens.interpret`.  The `notes` list is advisory free text
whose entries interpolate formatted floats; no claim depends on it and it is
not modelled.  The lens name travels as the key of the association list that
plays the role of the lens library. -/
structure LensInterpretation where
  coherence : ℚ
  confidence : ℚ
  concerns : List String
  strengths : List String
deriving DecidableEq

/-- `CulturalLens._optimize_q`: the saturating (Michaelis-Menten style)
transform applied to the q dimension only. -/
def optimize_q (params : LensParameters) (q_raw : ℚ) : ℚ :=
  if q_raw ≤ 0 then 0
  else q_raw / (params.km + q_raw + q_raw ^ 2 / params.ki)

/-- `CulturalLens.interpret`: optimize q, take the weighted mean of the five
dimensions (dividing by the sum of the profile's weights), then generate the
advisory concern/strength strings by comparing the raw dimensions against the
profile's baselines, and the fit-based confidence clamped into `[0.5, 1]`.
The branch structure and all constants mirror the source; concerns and
strengths are accumulated in the source's append order. -/
def interpret (psi rho q f tau : ℚ) (params : LensParameters) : LensInterpretation :=
  let q_opt := optimize_q params q
  let weighted_sum :=
    psi * params.psi_weight + rho * params.rho_weight + q_opt * params.q_weight +
      f * params.f_weight + tau * params.tau_weight
  let total_weight :=
    params.psi_weight + params.rho_weight + params.q_weight +
      params.f_weight + params.tau_weight
  let coherence := weighted_sum / total_weight
  let q_diff := q - params.q_baseline
  let qConcerns : List String :=
    if 1/5 < |q_diff| then
      (if 0 < q_diff ∧ params.verbal_expression < 2/5 then
        ["Elevated activation in typically reserved communicator"]
      else if q_diff < 0 ∧ 3/5 < params.verbal_expression then
        ["Unusual suppression in typically expressive communicator"]
      else [])
    else []
  let fConcerns : List String :=
    if f < 2/5 ∧ 3/5 < params.collective_orientation then
      ["Low social expression in collective-oriented individual"]
    else []
  let fStrengths : List String :=
    if ¬ f < 2/5 ∧ 7/10 < f then ["Strong social connection patterns"] else []
  let psiConcerns : List String :=
    if psi < 1/2 ∧ ¬ 2/5 < params.psi_tolerance then
      ["Low consistency in consistency-valuing culture"]
    else []
  let psiStrengths : List String :=
    if ¬ psi < 1/2 ∧ 4/5 < psi then ["Strong narrative consistency"] else []
  let tauConcerns : List String :=
    if tau < 2/5 then ["Limited temporal integration"] else []
  let tauStrengths : List String :=
    if ¬ tau < 2/5 ∧ 7/10 < tau then ["Good integration of past experience"] else []
  let fit_score := 1 -
    (|q - params.q_baseline| * (3/10) +
      |f - 1/2 - (params.collective_orientation - 1/2) * (2/5)| * (3/10))
  let confidence := max (1/2) (min 1 fit_score)
  { coherence := coherence, confidence := confidence,
    concerns := qConcerns ++ fConcerns ++ psiConcerns ++ tauConcerns,
    strengths := fStrengths ++ psiStrengths ++ tauStrengths }

/-- The built-in lens library (`LensLibrary._init_default_lenses`): the seven
named profiles with their source constants, as an association list in the
source's insertion order. -/
def default_lenses : List (String × LensParameters) :=
  [("combat_veteran",
    { psi_weight := 6/5, rho_weight := 1, q_weight := 4/5, f_weight := 13/10,
      tau_weight := 1, q_baseline := 7/20, f_baseline := 7/10,
      psi_tolerance := 1/5, verbal_expression := 3/10,
      direct_communication := 4/5, collective_orientation := 4/5,
      km := 1/4, ki := 3/2 }),
   ("first_generation",
    { psi_weight := 9/10, rho_weight := 6/5, q_weight := 11/10, f_weight := 1,
      tau_weight := 11/10, q_baseline := 11/20, f_baseline := 3/5,
      psi_tolerance := 2/5, verbal_expression := 3/5,
      direct_communication := 2/5, collective_orientation := 7/10,
      km := 3/10, ki := 2 }),
   ("neurodivergent",
    { psi_weight := 13/10, rho_weight := 1, q_weight := 7/10, f_weight := 4/5,
      tau_weight := 1, q_baseline := 2/5, f_baseline := 2/5,
      psi_tolerance := 1/10, verbal_expression := 1/2,
      direct_communication := 9/10, collective_orientation := 2/5,
      km := 7/20, ki := 5/2 }),
   ("rural_traditional",
    { psi_weight := 1, rho_weight := 6/5, q_weight := 7/10, f_weight := 1,
      tau_weight := 11/10, q_baseline := 7/20, f_baseline := 1/2,
      psi_tolerance := 3/10, verbal_expression := 3/10,
      direct_communication := 3/5, collective_orientation := 3/5,
      km := 3/10, ki := 2 }),
   ("urban_contemporary",
    { psi_weight := 9/10, rho_weight := 9/10, q_weight := 6/5, f_weight := 11/10,
      tau_weight := 9/10, q_baseline := 11/20, f_baseline := 3/5,
      psi_tolerance := 2/5, verbal_expression := 4/5,
      direct_communication := 1/2, collective_orientation := 1/2,
      km := 3/10, ki := 2 }),
   ("religious_framework",
    { psi_weight := 11/10, rho_weight := 13/10, q_weight := 1, f_weight := 6/5,
      tau_weight := 6/5, q_baseline := 1/2, f_baseline := 7/10,
      psi_tolerance := 3/10, verbal_expression := 3/5,
      direct_communication := 1/2, collective_orientation := 4/5,
      km := 3/10, ki := 2 }),
   ("female_service",
    { psi_weight := 1, rho_weight := 1, q_weight := 1, f_weight := 11/10,
      tau_weight := 1, q_baseline := 1/2, f_baseline := 1/2,
      psi_tolerance := 3/10, verbal_expression := 3/5,
      direct_communication := 7/10, collective_orientation := 3/5,
      km := 3/10, ki := 2 })]

/-- Mean of a list of rationals (`statistics.mean`); division by zero is the
rational junk value `0`, but every use below is guarded by non-emptiness. -/
def listMean (xs : List ℚ) : ℚ := xs.sum / xs.length

/-- Sum of squared deviations from the mean. -/
def sqDevSum (xs : List ℚ) : ℚ := (xs.map (fun x => (x - listMean xs) ^ 2)).sum

/-- Sample variance with Bessel's correction, the square of what
`statistics.stdev` returns (`stdev` needs at least two data points; its callers
below guard that). -/
def sampleVar (xs : List ℚ) : ℚ := sqDevSum xs / ((xs.length : ℚ) - 1)

/-- Minimum of a list (`min(...)` in Python); junk head-default for the empty
list, which is never reached below. -/
def listMin (xs : List ℚ) : ℚ := xs.foldl min (xs.headD 0)

/-- Maximum of a list (`max(...)` in Python). -/
def listMax (xs : List ℚ) : ℚ := xs.foldl max (xs.headD 0)

/-- The analysis dictionary built by
`LensDeviationCalculator.calculate_deviation`.  `devSq` is the square of the
returned deviation scalar: the source computes
`deviation = statistics.stdev(coherences)` (or `0.0` with fewer than two
coherences), i.e. `deviation = Real.sqrt devSq`, see
`DeviationAnalysis.deviation`.  `is_lens_invariant` is the source's
`deviation < 0.1`, recorded equivalently as `devSq < 1/100` (both sides are
nonnegative, and squaring is monotone on nonnegatives). -/
structure DeviationAnalysis where
  devSq : ℚ
  is_lens_invariant : Bool
  interpretations : List (String × LensInterpretation)
  range_low : ℚ
  range_high : ℚ
  coherence_mean : ℚ
  universal_concerns : List String
  translation_needed : Bool
deriving DecidableEq

/-- The deviation scalar `calculate_deviation` returns alongside the analysis:
the square root of the (rational) sample variance of the per-lens coherences. -/
noncomputable def DeviationAnalysis.deviation (r : DeviationAnalysis) : ℝ :=
  Real.sqrt r.devSq

/-- The per-lens interpretation pairs `calculate_deviation` accumulates: for
each requested lens name, look it up in the library and interpret the pattern
through it; names missing from the library are skipped. -/
def lensInterps (lib : List (String × LensParameters)) (psi rho q f tau : ℚ)
    (names : List String) : List (String × LensInterpretation) :=
  names.filterMap fun n =>
    (List.lookup n lib).map fun p => (n, interpret psi rho q f tau p)

/-- The coherence scalars collected by `calculate_deviation`. -/
def coherencesOf (lib : List (String × LensParameters)) (psi rho q f tau : ℚ)
    (names : List String) : List ℚ :=
  (lensInterps lib psi rho q f tau names).map fun e => e.2.coherence

/-- `LensDeviationCalculator.calculate_deviation`.  `lenses = none` means "use
every lens of the library" exactly as the Python default does.  When the
collected coherence list is empty (empty or unknown lens subset) the Python
`min(coherences)` / `statistics.mean(coherences)` calls raise `ValueError` /
`StatisticsError` while building the analysis dictionary; that fallible path is
embedded as `none`. -/
def calculate_deviation (lib : List (String × LensParameters))
    (psi rho q f tau : ℚ) (lenses : Option (List String)) :
    Option DeviationAnalysis :=
  let names := lenses.getD (lib.map fun e => e.1)
  let interps := lensInterps lib psi rho q f tau names
  let cs := coherencesOf lib psi rho q f tau names
  if cs = [] then none
  else
    let devSq : ℚ := if cs.length < 2 then 0 else sampleVar cs
    let allConcerns := (interps.map fun e => e.2.concerns).flatten
    some
      { devSq := devSq,
        is_lens_invariant := decide (devSq < 1/100),
        interpretations := interps,
        range_low := listMin cs,
        range_high := listMax cs,
        coherence_mean := listMean cs,
        universal_concerns := allConcerns.dedup.filter fun c =>
          decide ((names.length : ℚ) / 2 < (allConcerns.count c : ℚ)),
        translation_needed := !decide (devSq < 1/100) }

/-- The square of the deviation scalar `calculate_deviation` returns, when it
returns at all. -/
def calcDevSq (lib : List (String × LensParameters)) (psi rho q f tau : ℚ)
    (lenses : Option (List String)) : Option ℚ :=
  (calculate_deviation lib psi rho q f tau lenses).map fun r => r.devSq

/-- `FlagSeverity` from `athletic_coherence/core.py`. -/
inductive FlagSeverity where
  | info
  | watch
  | elevated
  | critical
deriving DecidableEq

/-- `PatternType` from `athletic_coherence/core.py`. -/
inductive PatternType where
  | individual
  | positional
  | systemic
  | protocol
deriving DecidableEq

/-- `InjuryRecord`, restricted to the fields the scoring code reads.  The
`date` field is read only through `date.strftime("%Y")`, so it is embedded
directly as that season string; `position`, `body_part`, `severity`,
`days_missed` and `previous_injury_id` are carried but never read by the
scoring/flag code and are not modelled. -/
structure InjuryRecord where
  player_id : String
  position_group : String
  injury_type : String
  season : String
  is_recurrence : Bool
deriving DecidableEq

/-- `TrainingLoad`, restricted to the fields the scoring code reads
(`load_score` on a 0-10 scale, `intensity` on a 0-1 scale). -/
structure TrainingLoad where
  player_id : String
  load_score : ℚ
  intensity : ℚ
deriving DecidableEq

/-- `RecoveryMetric`, restricted to the fields the scoring code reads
(both readiness scores on a 0-10 scale). -/
structure RecoveryMetric where
  player_id : String
  reported_readiness : ℚ
  objective_readiness : ℚ
deriving DecidableEq

/-- `SystemicFlag`, restricted to the data fields; the two `datetime`
timestamps (`first_detected`, `last_updated`) are wall-clock metadata outside
the embedding. -/
structure SystemicFlag where
  id : String
  pattern_type : PatternType
  severity : FlagSeverity
  description : String
  affected_positions : List String
  affected_players_count : Nat
  seasons_observed : List String
  data_points : Nat
  confidence : ℚ
  hypothesis : String
  correlation_strength : ℚ
  investigation_areas : List String
deriving DecidableEq

/-- The value of the Ψ reading from
`PhysicalCoherenceScore._calculate_load_coherence`: `0.5` without data,
otherwise `1 - min(variance, 1)` where `variance` is `0.5` for a single load
and `statistics.stdev(loads)/10` otherwise. -/
noncomputable def load_coherence_value (training : List TrainingLoad) : ℝ :=
  if training = [] then 1/2
  else
    let loads := training.map fun t => t.load_score
    let variance : ℝ :=
      if loads.length < 2 then 1/2 else Real.sqrt (sampleVar loads) / 10
    1 - min variance 1

/-- The value of the ρ reading from
`PhysicalCoherenceScore._calculate_history_integration`: `0.5` without data,
otherwise one minus the recurrence rate. -/
def history_integration_value (injuries : List InjuryRecord) : ℚ :=
  if injuries = [] then 1/2
  else
    let recurrences := (injuries.filter fun i => i.is_recurrence).length
    1 - (recurrences : ℚ) / (injuries.length : ℚ)

/-- The value of the q reading from
`PhysicalCoherenceScore._calculate_strain_accumulation`: `0.5` without
training data, otherwise the average of the mean intensity and the
soft-tissue injury rate (`soft / max(total, 1)`). -/
def strain_value (training : List TrainingLoad) (injuries : List InjuryRecord) : ℚ :=
  if training = [] then 1/2
  else
    let avg_intensity := (training.map fun t => t.intensity).sum / (training.length : ℚ)
    let soft_tissue := (injuries.filter fun i => i.injury_type == "soft_tissue").length
    let soft_tissue_rate := (soft_tissue : ℚ) / (max injuries.length 1 : ℚ)
    (avg_intensity + soft_tissue_rate) / 2

/-- The absolute reported/objective readiness gaps of a recovery batch. -/
def gapList (recovery : List RecoveryMetric) : List ℚ :=
  recovery.map fun r => |r.reported_readiness - r.objective_readiness|

/-- The mean readiness gap (guarded by non-emptiness at every use, as in the
source). -/
def avgGap (recovery : List RecoveryMetric) : ℚ :=
  (gapList recovery).sum / ((gapList recovery).length : ℚ)

/-- The value of the f reading from
`PhysicalCoherenceScore._calculate_team_protection`: `0.5` without data,
otherwise one minus a tenth of the mean readiness gap. -/
def team_protection_value (recovery : List RecoveryMetric) : ℚ :=
  if recovery = [] then 1/2 else 1 - avgGap recovery / 10

/-- The value of the τ reading from
`PhysicalCoherenceScore._calculate_recovery_depth`: `0.5` without data,
otherwise a tenth of the mean objective readiness. -/
def recovery_depth_value (recovery : List RecoveryMetric) : ℚ :=
  if recovery = [] then 1/2
  else ((recovery.map fun r => r.objective_readiness).sum / (recovery.length : ℚ)) / 10

/-- The injuries of one position group (the bucket
`position_groups[group]` built by `_detect_systemic_flags`). -/
def groupInjuries (injuries : List InjuryRecord) (g : String) : List InjuryRecord :=
  injuries.filter fun i => i.position_group == g

/-- The soft-tissue injuries of one position group. -/
def softInjuries (injuries : List InjuryRecord) (g : String) : List InjuryRecord :=
  (groupInjuries injuries g).filter fun i => i.injury_type == "soft_tissue"

/-- The distinct position groups occurring in an injury list (the keys of the
`position_groups` dict; Python iterates them in first-occurrence order while
`dedup` keeps last occurrences — the two listings have the same members, and
nothing below depends on the order). -/
def positionGroups (injuries : List InjuryRecord) : List String :=
  (injuries.map fun i => i.position_group).dedup

/-- The positional soft-tissue flag `_detect_systemic_flags` emits for a
qualifying group. -/
def softTissueFlag (injuries : List InjuryRecord) (g : String) : SystemicFlag :=
  { id := "SYS-SOFT-" ++ g.toUpper,
    pattern_type := PatternType.positional,
    severity := FlagSeverity.elevated,
    description := "High soft tissue injury rate in " ++ g,
    affected_positions := [g],
    affected_players_count := ((softInjuries injuries g).map fun i => i.player_id).dedup.length,
    seasons_observed := ((softInjuries injuries g).map fun i => i.season).dedup,
    data_points := (softInjuries injuries g).length,
    confidence := 4/5,
    hypothesis := "Training load or nutrition protocol may not match metabolic demands for this position group",
    correlation_strength := 7/10,
    investigation_areas :=
      ["Position-specific training load audit",
       "Nutrition assessment (collagen, anti-inflammatory)",
       "Recovery protocol review"] }

/-- The CRITICAL disclosure flag `_detect_systemic_flags` emits when the mean
readiness gap exceeds two points. -/
def disclosureFlag (recovery : List RecoveryMetric) : SystemicFlag :=
  { id := "SYS-DISCLOSURE",
    pattern_type := PatternType.systemic,
    severity := FlagSeverity.critical,
    description := "Athletes performing readiness instead of honest reporting",
    affected_positions := ["All"],
    affected_players_count := (recovery.map fun r => r.player_id).dedup.length,
    seasons_observed := [],
    data_points := recovery.length,
    confidence := 17/20,
    hypothesis := "Disclosure environment may not feel safe - reporting pain may affect playing time",
    correlation_strength := 4/5,
    investigation_areas :=
      ["Medical staff independence review",
       "Playing time correlation with injury reports",
       "Anonymous athlete survey on disclosure safety"] }

/-- `PhysicalCoherenceScore._detect_systemic_flags`: per position group, emit a
positional flag when that group shows at least three soft-tissue injuries
making up strictly more than half of the group's injuries; then, when recovery
data exists and the mean readiness gap exceeds `2.0`, append the CRITICAL
disclosure flag.  The `training` argument is accepted and ignored exactly as in
the source. -/
def detect_systemic_flags (injuries : List InjuryRecord)
    (_training : List TrainingLoad) (recovery : List RecoveryMetric) :
    List SystemicFlag :=
  let posFlags := (positionGroups injuries).filterMap fun g =>
    if 3 ≤ (softInjuries injuries g).length ∧
        1/2 < ((softInjuries injuries g).length : ℚ) / ((groupInjuries injuries g).length : ℚ) then
      some (softTissueFlag injuries g)
    else none
  let discFlags := if recovery ≠ [] ∧ 2 < avgGap recovery then [disclosureFlag recovery] else []
  posFlags ++ discFlags

/-- `LensParameters()` with the dataclass defaults. -/
def defaultParams : LensParameters := {}

section ListLemmas

/-- Expansion of a sum of squared deviations about an arbitrary centre. -/
lemma sum_map_sq_expand (c : ℚ) (xs : List ℚ) :
    (xs.map fun x => (x - c) ^ 2).sum =
      (xs.map fun x => x ^ 2).sum - 2 * c * xs.sum + (xs.length : ℚ) * c ^ 2 := by
  induction xs with
  | nil => simp
  | cons a t ih =>
    simp only [List.map_cons, List.sum_cons, List.length_cons, ih]
    push_cast
    ring

/-- A list of values bounded above by `c` sums to at most `length * c`. -/
lemma list_sum_le_length_mul (xs : List ℚ) (c : ℚ) (h : ∀ x ∈ xs, x ≤ c) :
    xs.sum ≤ (xs.length : ℚ) * c := by
  induction xs with
  | nil => simp
  | cons a t ih =>
    simp only [List.sum_cons, List.length_cons]
    have ha := h a (by simp)
    have ht := ih fun x hx => h x (by simp [hx])
    push_cast
    linarith

end ListLemmas

section VarianceLemmas

/-- Closed form of the squared-deviation sum of a non-empty list. -/
lemma sqDevSum_eq_sumSq (xs : List ℚ) (h : xs ≠ []) :
    sqDevSum xs = (xs.map fun x => x ^ 2).sum - xs.sum ^ 2 / (xs.length : ℚ) := by
  have hl : xs.length ≠ 0 := fun h0 => h (List.length_eq_zero.mp h0)
  have hn : (xs.length : ℚ) ≠ 0 := Nat.cast_ne_zero.mpr hl
  unfold sqDevSum listMean
  rw [sum_map_sq_expand]
  field_simp
  ring

/-- Appending one value updates the squared-deviation sum by
`n * (y - mean)^2 / (n + 1)`. -/
lemma sqDevSum_append (xs : List ℚ) (y : ℚ) (h : xs ≠ []) :
    sqDevSum (xs ++ [y]) =
      sqDevSum xs + (xs.length : ℚ) * (y - listMean xs) ^ 2 / ((xs.length : ℚ) + 1) := by
  have hne : xs ++ [y] ≠ [] := by simp
  have hl : xs.length ≠ 0 := fun h0 => h (List.length_eq_zero.mp h0)
  have hn : (xs.length : ℚ) ≠ 0 := Nat.cast_ne_zero.mpr hl
  have hn1 : (xs.length : ℚ) + 1 ≠ 0 := by positivity
  rw [sqDevSum_eq_sumSq _ h, sqDevSum_eq_sumSq _ hne]
  unfold listMean
  simp only [List.map_append, List.sum_append, List.length_append, List.map_cons,
    List.map_nil, List.sum_cons, List.sum_nil, List.length_cons, List.length_nil]
  push_cast
  field_simp
  ring

/-- Adding a value whose squared distance from the mean is at least
`(n+1)/n` times the sample variance cannot decrease the sample variance. -/
lemma sampleVar_append_ge (xs : List ℚ) (y : ℚ) (h2 : 2 ≤ xs.length)
    (hcond : ((xs.length : ℚ) + 1) * sampleVar xs ≤
      (y - listMean xs) ^ 2 * (xs.length : ℚ)) :
    sampleVar xs ≤ sampleVar (xs ++ [y]) := by
  have hne : xs ≠ [] := by rintro rfl; simp at h2
  have hn2 : (2 : ℚ) ≤ (xs.length : ℚ) := by exact_mod_cast h2
  set n : ℚ := (xs.length : ℚ) with hnd
  have h0 : (0 : ℚ) < n := by linarith
  have h1 : (0 : ℚ) < n - 1 := by linarith
  have h3 : (0 : ℚ) < n + 1 := by linarith
  set A : ℚ := sqDevSum xs with hAd
  set d : ℚ := (y - listMean xs) ^ 2 with hdd
  have key : (n + 1) * A ≤ d * n * (n - 1) := by
    have hv : sampleVar xs = A / (n - 1) := rfl
    rw [hv] at hcond
    have h4 := mul_le_mul_of_nonneg_right hcond (le_of_lt h1)
    have h5 : (n + 1) * (A / (n - 1)) * (n - 1) = (n + 1) * A := by
      rw [mul_assoc, div_mul_cancel₀ _ (ne_of_gt h1)]
    linarith [h4, h5]
  have key2 : A ≤ n * d * (n - 1) / (n + 1) := by
    rw [le_div_iff₀ h3]
    nlinarith [key]
  have happ : sqDevSum (xs ++ [y]) = A + n * d / (n + 1) := sqDevSum_append xs y hne
  have hlen : ((xs ++ [y]).length : ℚ) = n + 1 := by
    rw [hnd]
    simp only [List.length_append, List.length_cons, List.length_nil]
    push_cast
    ring
  show A / (n - 1) ≤ sqDevSum (xs ++ [y]) / (((xs ++ [y]).length : ℚ) - 1)
  rw [happ, hlen]
  have h6 : n + 1 - 1 = n := by ring
  rw [h6, div_le_div_iff₀ h1 h0]
  have expand : (A + n * d / (n + 1)) * (n - 1) =
      A * (n - 1) + n * d * (n - 1) / (n + 1) := by ring
  rw [expand]
  linarith [key2]

/-- The sample variance of a constant list vanishes. -/
lemma sampleVar_replicate (n : ℕ) (c : ℚ) : sampleVar (List.replicate n c) = 0 := by
  cases n with
  | zero => simp [sampleVar, sqDevSum]
  | succ m =>
    have hm : ((m : ℚ) + 1) ≠ 0 := by positivity
    have hmean : listMean (List.replicate (m + 1) c) = c := by
      unfold listMean
      simp only [List.sum_replicate, List.length_replicate, nsmul_eq_mul]
      push_cast
      field_simp
    unfold sampleVar sqDevSum
    rw [hmean, List.map_replicate]
    simp

end VarianceLemmas

section LensLemmas

/-- A `filterMap` whose function yields the same `some` on every element is a
`replicate`. -/
lemma filterMap_const_some {α β : Type} (l : List α) (fcn : α → Option β) (c : β)
    (h : ∀ a ∈ l, fcn a = some c) :
    l.filterMap fcn = List.replicate l.length c := by
  induction l with
  | nil => simp
  | cons a t ih =>
    rw [List.filterMap_cons_some (h a (by simp)), List.length_cons,
      List.replicate_succ, ih fun x hx => h x (by simp [hx])]

/-- In a library whose entries all carry the same parameters, every present key
looks up to those parameters. -/
lemma lookup_of_all_eq (lib : List (String × LensParameters)) (p : LensParameters)
    (hall : ∀ e ∈ lib, e.2 = p) {n : String} (hn : n ∈ lib.map Prod.fst) :
    List.lookup n lib = some p := by
  induction lib with
  | nil => simp at hn
  | cons e t ih =>
    obtain ⟨k, v⟩ := e
    simp only [List.lookup]
    cases hbeq : (n == k) with
    | true =>
      simp only [hbeq]
      have : v = p := hall (k, v) (by simp)
      rw [this]
    | false =>
      simp only [hbeq]
      have hne : n ≠ k := by simpa using (beq_eq_false_iff_ne (a := n) (b := k)).mp hbeq
      have hn' : n ∈ t.map Prod.fst := by
        rcases (by simpa using hn : n = k ∨ n ∈ t.map Prod.fst) with h | h
        · exact absurd h hne
        · exact h
      exact ih (fun e he => hall e (by simp [he])) hn'

/-- Against a library of identical profiles, the collected coherences form a
constant list of the library's length. -/
lemma coherencesOf_const (lib : List (String × LensParameters)) (psi rho q f tau : ℚ)
    (p : LensParameters) (hall : ∀ e ∈ lib, e.2 = p) :
    coherencesOf lib psi rho q f tau (lib.map Prod.fst) =
      List.replicate lib.length ((interpret psi rho q f tau p).coherence) := by
  unfold coherencesOf lensInterps
  rw [List.map_filterMap]
  have hlen : (lib.map Prod.fst).length = lib.length := List.length_map _ _
  rw [← hlen]
  apply filterMap_const_some
  intro n hn
  rw [lookup_of_all_eq lib p hall hn]
  rfl

/-- Requesting one extra known lens appends its coherence to the collected
list. -/
lemma coherencesOf_append (lib : List (String × LensParameters)) (psi rho q f tau : ℚ)
    (names : List String) (n : String) (p : LensParameters)
    (hp : List.lookup n lib = some p) :
    coherencesOf lib psi rho q f tau (names ++ [n]) =
      coherencesOf lib psi rho q f tau names ++
        [(interpret psi rho q f tau p).coherence] := by
  unfold coherencesOf lensInterps
  rw [List.filterMap_append, List.map_append]
  congr 1
  simp [hp]

/-- When at least two coherences are collected, `calculate_deviation` succeeds
and the square of its deviation scalar is the sample variance of the collected
coherences. -/
lemma calcDevSq_some (lib : List (String × LensParameters)) (psi rho q f tau : ℚ)
    (names : List String)
    (h : 2 ≤ (coherencesOf lib psi rho q f tau names).length) :
    calcDevSq lib psi rho q f tau (some names) =
      some (sampleVar (coherencesOf lib psi rho q f tau names)) := by
  have hne : coherencesOf lib psi rho q f tau names ≠ [] := by
    intro h0
    rw [h0] at h
    simp at h
  have hlt : ¬ (coherencesOf lib psi rho q f tau names).length < 2 := not_lt.mpr h
  simp only [calcDevSq, calculate_deviation, Option.getD_some]
  rw [if_neg hne]
  simp only [Option.map_some']
  rw [if_neg hlt]

end LensLemmas

/-- Claim C3.  For every pattern tuple and every library of at least two lens
profiles that are pairwise identical (same weights, baselines, tolerances and
saturation constants), `calculate_deviation` over all lenses succeeds with
deviation equal to `0` and an analysis classifying the pattern as
lens-invariant. -/
theorem identical_lenses_zero_deviation (lib : List (String × LensParameters))
    (p : LensParameters) (psi rho q f tau : ℚ)
    (hlen : 2 ≤ lib.length) (hall : ∀ e ∈ lib, e.2 = p) :
    ∃ r, calculate_deviation lib psi rho q f tau none = some r ∧
      r.deviation = 0 ∧ r.is_lens_invariant = true := by
  have hc := coherencesOf_const lib psi rho q f tau p hall
  have hlen2 : 2 ≤ (coherencesOf lib psi rho q f tau (lib.map Prod.fst)).length := by
    rw [hc, List.length_replicate]
    exact hlen
  have hne : coherencesOf lib psi rho q f tau (lib.map Prod.fst) ≠ [] := by
    intro h0
    rw [h0] at hlen2
    simp at hlen2
  have hvar : sampleVar (coherencesOf lib psi rho q f tau (lib.map Prod.fst)) = 0 := by
    rw [hc]
    exact sampleVar_replicate _ _
  have hlt : ¬ (coherencesOf lib psi rho q f tau (lib.map Prod.fst)).length < 2 :=
    not_lt.mpr hlen2
  simp only [calculate_deviation, Option.getD_none]
  rw [if_neg hne]
  refine ⟨_, rfl, ?_, ?_⟩
  · show Real.sqrt
      ((if (coherencesOf lib psi rho q f tau (lib.map Prod.fst)).length < 2 then 0
        else sampleVar (coherencesOf lib psi rho q f tau (lib.map Prod.fst)) : ℚ) : ℝ) = 0
    rw [if_neg hlt, hvar]
    simp
  · show decide
      ((if (coherencesOf lib psi rho q f tau (lib.map Prod.fst)).length < 2 then 0
        else sampleVar (coherencesOf lib psi rho q f tau (lib.map Prod.fst))) < 1/100) = true
    rw [if_neg hlt, hvar, decide_eq_true_eq]
    norm_num

/-- Witness for C3: the library of two identically calibrated lenses named
"a" and "b", on the pattern (0.75, 0.6, 0.35, 0.45, 0.5). -/
theorem identical_lenses_zero_deviation_witness :
    2 ≤ ([("a", defaultParams), ("b", defaultParams)] : List (String × LensParameters)).length ∧
    (∀ e ∈ ([("a", defaultParams), ("b", defaultParams)] : List (String × LensParameters)),
      e.2 = defaultParams) ∧
    ∃ r, calculate_deviation [("a", defaultParams), ("b", defaultParams)]
        (3/4) (3/5) (7/20) (9/20) (1/2) none = some r ∧
      r.deviation = 0 ∧ r.is_lens_invariant = true :=
  ⟨by decide, by simp,
    identical_lenses_zero_deviation [("a", defaultParams), ("b", defaultParams)]
      defaultParams (3/4) (3/5) (7/20) (9/20) (1/2) (by decide) (by simp)⟩

/-- Profile used by the C4 counterexample: default calibration (all five
weights `1`), so on the pattern (0, 1, 0, 0, 0) its coherence is `1/5`. -/
def cexParamsA : LensParameters := {}

/-- Profile used by the C4 counterexample: weights (2, 20, 1, 1, 1), coherence
`20/25 = 4/5` on the pattern (0, 1, 0, 0, 0). -/
def cexParamsB : LensParameters := { psi_weight := 2, rho_weight := 20 }

/-- Profile used by the C4 counterexample: weights (14, 83, 1, 1, 1), coherence
`83/100` on the pattern (0, 1, 0, 0, 0). -/
def cexParamsC : LensParameters := { psi_weight := 14, rho_weight := 83 }

/-- Library of the three C4 counterexample profiles. -/
def cexLib : List (String × LensParameters) :=
  [("a", cexParamsA), ("b", cexParamsB), ("c", cexParamsC)]

/-- Counterexample to claim C4.  On the pattern (0, 1, 0, 0, 0), lenses "a" and
"b" interpret to coherences `1/5` and `4/5` with sample deviation
`√(9/50) ≈ 0.424`.  Lens "c" interprets to `83/100`, strictly above the current
maximum `4/5`; extending the lens set by "c" nevertheless *decreases* the
sample standard deviation returned by `calculate_deviation` to
`√(1263/10000) ≈ 0.355`, refuting "never decreases". -/
theorem outside_range_deviation_can_decrease :
    (interpret 0 1 0 0 0 cexParamsA).coherence = 1/5 ∧
    (interpret 0 1 0 0 0 cexParamsB).coherence = 4/5 ∧
    (interpret 0 1 0 0 0 cexParamsC).coherence = 83/100 ∧
    (4/5 : ℚ) < 83/100 ∧
    calcDevSq cexLib 0 1 0 0 0 (some ["a", "b"]) = some (9/50) ∧
    calcDevSq cexLib 0 1 0 0 0 (some ["a", "b", "c"]) = some (1263/10000) ∧
    Real.sqrt ((1263/10000 : ℚ) : ℝ) < Real.sqrt ((9/50 : ℚ) : ℝ) := by
  have hA : (interpret 0 1 0 0 0 cexParamsA).coherence = 1/5 := by
    norm_num [interpret, optimize_q, cexParamsA, defaultParams]
  have hB : (interpret 0 1 0 0 0 cexParamsB).coherence = 4/5 := by
    norm_num [interpret, optimize_q, cexParamsB]
  have hC : (interpret 0 1 0 0 0 cexParamsC).coherence = 83/100 := by
    norm_num [interpret, optimize_q, cexParamsC]
  have hAB : coherencesOf cexLib 0 1 0 0 0 ["a", "b"] =
      [(interpret 0 1 0 0 0 cexParamsA).coherence,
        (interpret 0 1 0 0 0 cexParamsB).coherence] := rfl
  have hABC : coherencesOf cexLib 0 1 0 0 0 ["a", "b", "c"] =
      [(interpret 0 1 0 0 0 cexParamsA).coherence,
        (interpret 0 1 0 0 0 cexParamsB).coherence,
        (interpret 0 1 0 0 0 cexParamsC).coherence] := rfl
  refine ⟨hA, hB, hC, by norm_num, ?_, ?_, ?_⟩
  · rw [calcDevSq_some cexLib 0 1 0 0 0 ["a", "b"] (by rw [hAB]; norm_num)]
    rw [hAB, hA, hB]
    norm_num [sampleVar, sqDevSum, listMean]
  · rw [calcDevSq_some cexLib 0 1 0 0 0 ["a", "b", "c"] (by rw [hABC]; norm_num)]
    rw [hABC, hA, hB, hC]
    norm_num [sampleVar, sqDevSum, listMean]
  · apply Real.sqrt_lt_sqrt <;> norm_num

/-- Amended claim C4.  For a fixed pattern tuple and a requested lens subset
interpreting to at least two coherences, extending the subset by one further
library lens whose coherence `y` satisfies
`(y - mean)^2 * n ≥ (n + 1) * sampleVariance` — in particular any lens far
enough outside the current spread, though not every lens merely outside the
min/max range — never decreases the sample standard deviation returned by
`calculate_deviation`. -/
theorem far_from_mean_deviation_nondecreasing
    (lib : List (String × LensParameters)) (psi rho q f tau : ℚ)
    (names : List String) (n : String) (p : LensParameters)
    (h2 : 2 ≤ (coherencesOf lib psi rho q f tau names).length)
    (hp : List.lookup n lib = some p)
    (hcond : (((coherencesOf lib psi rho q f tau names).length : ℚ) + 1) *
        sampleVar (coherencesOf lib psi rho q f tau names) ≤
      ((interpret psi rho q f tau p).coherence -
          listMean (coherencesOf lib psi rho q f tau names)) ^ 2 *
        ((coherencesOf lib psi rho q f tau names).length : ℚ)) :
    ∃ d d', calcDevSq lib psi rho q f tau (some names) = some d ∧
      calcDevSq lib psi rho q f tau (some (names ++ [n])) = some d' ∧
      Real.sqrt (d : ℝ) ≤ Real.sqrt (d' : ℝ) := by
  have happ := coherencesOf_append lib psi rho q f tau names n p hp
  have h2' : 2 ≤ (coherencesOf lib psi rho q f tau (names ++ [n])).length := by
    rw [happ, List.length_append]
    simp only [List.length_cons, List.length_nil]
    omega
  refine ⟨_, _, calcDevSq_some lib psi rho q f tau names h2,
    calcDevSq_some lib psi rho q f tau (names ++ [n]) h2', ?_⟩
  apply Real.sqrt_le_sqrt
  rw [happ]
  exact_mod_cast sampleVar_append_ge (coherencesOf lib psi rho q f tau names)
    ((interpret psi rho q f tau p).coherence) h2 hcond

/-- Profile used by the C4-amended witness: weights (8, 9, 1, 1, 1), coherence
`9/20` on the pattern (0, 1, 0, 0, 0). -/
def cexParamsD : LensParameters := { psi_weight := 8, rho_weight := 9 }

/-- Profile used by the C4-amended witness: weights (6, 11, 1, 1, 1), coherence
`11/20` on the pattern (0, 1, 0, 0, 0). -/
def cexParamsE : LensParameters := { psi_weight := 6, rho_weight := 11 }

/-- Profile used by the C4-amended witness: weights (5, 12, 1, 1, 1), coherence
`12/20 = 3/5` on the pattern (0, 1, 0, 0, 0). -/
def cexParamsF : LensParameters := { psi_weight := 5, rho_weight := 12 }

/-- Library of the three C4-amended witness profiles. -/
def amendLib : List (String × LensParameters) :=
  [("d", cexParamsD), ("e", cexParamsE), ("f", cexParamsF)]

/-- Witness for the amended C4: coherences (9/20, 11/20) have sample variance
`1/200`; adding the lens of coherence `3/5` satisfies the mean-distance
condition (`(1/10)^2 * 2 = 1/50 ≥ 3 * 1/200`) and the variance indeed rises to
`7/1200 ≥ 6/1200`. -/
theorem far_from_mean_deviation_nondecreasing_witness :
    calcDevSq amendLib 0 1 0 0 0 (some ["d", "e"]) = some (1/200) ∧
    calcDevSq amendLib 0 1 0 0 0 (some ["d", "e", "f"]) = some (7/1200) ∧
    Real.sqrt ((1/200 : ℚ) : ℝ) ≤ Real.sqrt ((7/1200 : ℚ) : ℝ) := by
  have hD : (interpret 0 1 0 0 0 cexParamsD).coherence = 9/20 := by
    norm_num [interpret, optimize_q, cexParamsD]
  have hE : (interpret 0 1 0 0 0 cexParamsE).coherence = 11/20 := by
    norm_num [interpret, optimize_q, cexParamsE]
  have hF : (interpret 0 1 0 0 0 cexParamsF).coherence = 3/5 := by
    norm_num [interpret, optimize_q, cexParamsF]
  have hDE : coherencesOf amendLib 0 1 0 0 0 ["d", "e"] =
      [(interpret 0 1 0 0 0 cexParamsD).coherence,
        (interpret 0 1 0 0 0 cexParamsE).coherence] := rfl
  have hDEF : coherencesOf amendLib 0 1 0 0 0 (["d", "e"] ++ ["f"]) =
      [(interpret 0 1 0 0 0 cexParamsD).coherence,
        (interpret 0 1 0 0 0 cexParamsE).coherence,
        (interpret 0 1 0 0 0 cexParamsF).coherence] := rfl
  have e1 : calcDevSq amendLib 0 1 0 0 0 (some ["d", "e"]) = some (1/200) := by
    rw [calcDevSq_some amendLib 0 1 0 0 0 ["d", "e"] (by rw [hDE]; norm_num)]
    rw [hDE, hD, hE]
    norm_num [sampleVar, sqDevSum, listMean]
  have e2 : calcDevSq amendLib 0 1 0 0 0 (some (["d", "e"] ++ ["f"])) = some (7/1200) := by
    rw [calcDevSq_some amendLib 0 1 0 0 0 (["d", "e"] ++ ["f"]) (by rw [hDEF]; norm_num)]
    rw [hDEF, hD, hE, hF]
    norm_num [sampleVar, sqDevSum, listMean]
  obtain ⟨d, d', hd, hd', hle⟩ :=
    far_from_mean_deviation_nondecreasing amendLib 0 1 0 0 0 ["d", "e"] "f" cexParamsF
      (by rw [hDE]; norm_num) rfl
      (by rw [hDE, hD, hE, hF]; norm_num [sampleVar, sqDevSum, listMean])
  have hd1 : d = 1/200 := by
    rw [e1] at hd
    exact (Option.some_inj.mp hd).symm
  have hd2 : d' = 7/1200 := by
    rw [e2] at hd'
    exact (Option.some_inj.mp hd').symm
  rw [hd1, hd2] at hle
  exact ⟨e1, e2, hle⟩

/-- Claim C1.  For every pattern tuple and every profile with positive weights,
`interpret` returns the coherence
`(psi*w_psi + rho*w_rho + q_opt*w_q + f*w_f + tau*w_tau) / (sum of weights)`,
where `q_opt = q / (km + q + q^2/ki)` for `q > 0` and `0` for `q ≤ 0`; only q is
transformed, the other four dimensions enter raw. -/
theorem interpret_coherence_weighted_mean (psi rho q f tau : ℚ) (p : LensParameters)
    (h1 : 0 < p.psi_weight) (h2 : 0 < p.rho_weight) (h3 : 0 < p.q_weight)
    (h4 : 0 < p.f_weight) (h5 : 0 < p.tau_weight) :
    (interpret psi rho q f tau p).coherence =
      (psi * p.psi_weight + rho * p.rho_weight +
        (if 0 < q then q / (p.km + q + q ^ 2 / p.ki) else 0) * p.q_weight +
        f * p.f_weight + tau * p.tau_weight) /
      (p.psi_weight + p.rho_weight + p.q_weight + p.f_weight + p.tau_weight) := by
  by_cases hq : q ≤ 0
  · simp only [interpret, optimize_q, if_pos hq, if_neg (not_lt.mpr hq)]
  · simp only [interpret, optimize_q, if_neg hq, if_pos (not_le.mp hq)]

/-- Witness for C1: the default profile (all weights 1) on the pattern
(0.75, 0.6, 0.35, 0.45, 0.5). -/
theorem interpret_coherence_weighted_mean_witness :
    (0 : ℚ) < defaultParams.psi_weight ∧ (0 : ℚ) < defaultParams.rho_weight ∧
    (0 : ℚ) < defaultParams.q_weight ∧ (0 : ℚ) < defaultParams.f_weight ∧
    (0 : ℚ) < defaultParams.tau_weight ∧
    (interpret (3/4) (3/5) (7/20) (9/20) (1/2) defaultParams).coherence =
      ((3/4) * defaultParams.psi_weight + (3/5) * defaultParams.rho_weight +
        (if (0 : ℚ) < 7/20 then
          (7/20) / (defaultParams.km + 7/20 + (7/20) ^ 2 / defaultParams.ki)
        else 0) * defaultParams.q_weight +
        (9/20) * defaultParams.f_weight + (1/2) * defaultParams.tau_weight) /
      (defaultParams.psi_weight + defaultParams.rho_weight + defaultParams.q_weight +
        defaultParams.f_weight + defaultParams.tau_weight) := by
  refine ⟨?_, ?_, ?_, ?_, ?_,
    interpret_coherence_weighted_mean (3/4) (3/5) (7/20) (9/20) (1/2) defaultParams
      ?_ ?_ ?_ ?_ ?_⟩ <;> norm_num [defaultParams]

/-- Claim C2.  For every non-empty recovery batch whose mean absolute
reported/objective readiness gap exceeds 2.0, the flag list of
`_detect_systemic_flags` contains the systemic disclosure flag with severity
CRITICAL — regardless of the injury and training inputs. -/
theorem disclosure_gap_flag_critical (injuries : List InjuryRecord)
    (training : List TrainingLoad) (recovery : List RecoveryMetric)
    (hne : recovery ≠ []) (hgap : 2 < avgGap recovery) :
    ∃ fl ∈ detect_systemic_flags injuries training recovery,
      fl.id = "SYS-DISCLOSURE" ∧ fl.severity = FlagSeverity.critical ∧
        fl.pattern_type = PatternType.systemic := by
  refine ⟨disclosureFlag recovery, ?_, rfl, rfl, rfl⟩
  simp only [detect_systemic_flags]
  rw [if_pos (⟨hne, hgap⟩ : recovery ≠ [] ∧ 2 < avgGap recovery)]
  exact List.mem_append_right _ (by simp)

/-- Witness for C2: a single recovery record reporting 8.2 against an objective
5.8 (gap 2.4 > 2.0), with no injury or training data at all. -/
theorem disclosure_gap_flag_critical_witness :
    (([⟨"p1", 41/5, 29/5⟩] : List RecoveryMetric) ≠ []) ∧
    2 < avgGap [⟨"p1", 41/5, 29/5⟩] ∧
    ∃ fl ∈ detect_systemic_flags [] [] [⟨"p1", 41/5, 29/5⟩],
      fl.id = "SYS-DISCLOSURE" ∧ fl.severity = FlagSeverity.critical ∧
        fl.pattern_type = PatternType.systemic := by
  have hgap : 2 < avgGap [(⟨"p1", 41/5, 29/5⟩ : RecoveryMetric)] := by
    simp only [avgGap, gapList, List.map_cons, List.map_nil, List.sum_cons,
      List.sum_nil, List.length_cons, List.length_nil]
    rw [show |(41/5 : ℚ) - 29/5| = 12/5 by rw [abs_of_nonneg] <;> norm_num]
    norm_num
  exact ⟨by simp, hgap, disclosure_gap_flag_critical [] [] _ (by simp) hgap⟩

/-- Claim C5.  For every injury list and every position group occurring in it,
the flag list of `_detect_systemic_flags` contains a positional flag for that
group exactly when the group counts at least 3 soft-tissue injuries making up
strictly more than half of the group's injuries. -/
theorem soft_tissue_positional_flag_iff (injuries : List InjuryRecord)
    (training : List TrainingLoad) (recovery : List RecoveryMetric) (g : String)
    (hg : g ∈ injuries.map fun i => i.position_group) :
    (∃ fl ∈ detect_systemic_flags injuries training recovery,
        fl.pattern_type = PatternType.positional ∧ fl.affected_positions = [g]) ↔
      (3 ≤ (softInjuries injuries g).length ∧
        1/2 < ((softInjuries injuries g).length : ℚ) /
          ((groupInjuries injuries g).length : ℚ)) := by
  simp only [detect_systemic_flags]
  constructor
  · rintro ⟨fl, hmem, hpat, haff⟩
    rcases List.mem_append.mp hmem with hpos | hdisc
    · obtain ⟨g', hg', hsome⟩ := List.mem_filterMap.mp hpos
      by_cases hcond : 3 ≤ (softInjuries injuries g').length ∧
          1/2 < ((softInjuries injuries g').length : ℚ) /
            ((groupInjuries injuries g').length : ℚ)
      · rw [if_pos hcond] at hsome
        have hfl : fl = softTissueFlag injuries g' := (Option.some_inj.mp hsome).symm
        have hgg : g' = g := by
          have haff' := haff
          rw [hfl] at haff'
          simpa [softTissueFlag] using haff'
        rwa [hgg] at hcond
      · rw [if_neg hcond] at hsome
        exact absurd hsome (by simp)
    · by_cases hrec : recovery ≠ [] ∧ 2 < avgGap recovery
      · rw [if_pos hrec] at hdisc
        have hfl : fl = disclosureFlag recovery := by simpa using hdisc
        rw [hfl] at hpat
        simp [disclosureFlag] at hpat
      · rw [if_neg hrec] at hdisc
        simp at hdisc
  · intro hcond
    refine ⟨softTissueFlag injuries g, ?_, rfl, rfl⟩
    apply List.mem_append_left
    apply List.mem_filterMap.mpr
    refine ⟨g, ?_, ?_⟩
    · unfold positionGroups
      rw [List.mem_dedup]
      exact hg
    · rw [if_pos hcond]

/-- The six "secondary" injury records of the C5 witness scenario: five
soft-tissue injuries and one structural injury. -/
def secondaryInjuries : List InjuryRecord :=
  [⟨"p1", "secondary", "soft_tissue", "2024", false⟩,
   ⟨"p2", "secondary", "soft_tissue", "2024", false⟩,
   ⟨"p3", "secondary", "soft_tissue", "2024", false⟩,
   ⟨"p4", "secondary", "soft_tissue", "2024", false⟩,
   ⟨"p5", "secondary", "soft_tissue", "2024", false⟩,
   ⟨"p6", "secondary", "structural", "2024", true⟩]

/-- Witness for C5: 5 soft-tissue records out of 6 total tagged "secondary"
(5 ≥ 3 and 5/6 > 1/2) produce a positional soft-tissue flag for "secondary". -/
theorem soft_tissue_positional_flag_iff_witness :
    ("secondary" ∈ secondaryInjuries.map fun i => i.position_group) ∧
    ∃ fl ∈ detect_systemic_flags secondaryInjuries [] [],
      fl.pattern_type = PatternType.positional ∧ fl.affected_positions = ["secondary"] := by
  have h5 : (softInjuries secondaryInjuries "secondary").length = 5 := rfl
  have h6 : (groupInjuries secondaryInjuries "secondary").length = 6 := rfl
  have hg : "secondary" ∈ secondaryInjuries.map fun i => i.position_group := by decide
  refine ⟨hg, (soft_tissue_positional_flag_iff secondaryInjuries [] [] "secondary" hg).mpr ?_⟩
  rw [h5, h6]
  norm_num

/-- Claim C6 (failing part).  Calling `calculate_deviation` with an empty list
of lens names collects no coherences, and the Python then raises `ValueError`
from `min([])` (and `StatisticsError` from `statistics.mean([])`) while
building the analysis dictionary instead of returning a sentinel: the embedded
fallible path yields `none`. -/
theorem calculate_deviation_empty_lenses_fails :
    calculate_deviation default_lenses (1/2) (1/2) (1/2) (1/2) (1/2) (some []) = none := rfl

/-- Claim C8.  The coherence scalar of `interpret` depends only on the five
dimensions, the five weights and km/ki: profiles differing only in baselines,
tolerance or expression knobs yield identical coherence. -/
theorem coherence_independent_of_baselines (psi rho q f tau : ℚ)
    (p₁ p₂ : LensParameters)
    (hw1 : p₁.psi_weight = p₂.psi_weight) (hw2 : p₁.rho_weight = p₂.rho_weight)
    (hw3 : p₁.q_weight = p₂.q_weight) (hw4 : p₁.f_weight = p₂.f_weight)
    (hw5 : p₁.tau_weight = p₂.tau_weight)
    (hkm : p₁.km = p₂.km) (hki : p₁.ki = p₂.ki) :
    (interpret psi rho q f tau p₁).coherence =
      (interpret psi rho q f tau p₂).coherence := by
  simp only [interpret, optimize_q, hw1, hw2, hw3, hw4, hw5, hkm, hki]

/-- Profile for the C8 witness: the default weights and saturation constants of
`defaultParams` but combat-veteran-style baselines, tolerance and expression
knobs. -/
def c8Params : LensParameters :=
  { q_baseline := 7/20, f_baseline := 7/10, psi_tolerance := 1/5,
    verbal_expression := 3/10, direct_communication := 4/5,
    collective_orientation := 4/5 }

/-- Witness for C8: `c8Params` differs from `defaultParams` only in baselines,
tolerance and expression knobs, and interprets the pattern
(0.75, 0.6, 0.35, 0.45, 0.5) to the same coherence. -/
theorem coherence_independent_of_baselines_witness :
    c8Params.psi_weight = defaultParams.psi_weight ∧
    c8Params.rho_weight = defaultParams.rho_weight ∧
    c8Params.q_weight = defaultParams.q_weight ∧
    c8Params.f_weight = defaultParams.f_weight ∧
    c8Params.tau_weight = defaultParams.tau_weight ∧
    c8Params.km = defaultParams.km ∧ c8Params.ki = defaultParams.ki ∧
    c8Params.q_baseline ≠ defaultParams.q_baseline ∧
    (interpret (3/4) (3/5) (7/20) (9/20) (1/2) c8Params).coherence =
      (interpret (3/4) (3/5) (7/20) (9/20) (1/2) defaultParams).coherence :=
  ⟨rfl, rfl, rfl, rfl, rfl, rfl, rfl, by norm_num [c8Params, defaultParams],
    coherence_independent_of_baselines (3/4) (3/5) (7/20) (9/20) (1/2)
      c8Params defaultParams rfl rfl rfl rfl rfl rfl rfl⟩

section TextBoundLemmas

/-- Bounds of the text extractor's f value, as a function of the isolation and
connection match counts. -/
lemma f_text_bounds (iso conn : ℕ) :
    0 ≤ (if 0 < iso + conn then (conn : ℚ) / ((iso + conn : ℕ) : ℚ) else 1/2) ∧
      (if 0 < iso + conn then (conn : ℚ) / ((iso + conn : ℕ) : ℚ) else 1/2) ≤ 1 := by
  split_ifs with h
  · have hpos : (0 : ℚ) < ((iso + conn : ℕ) : ℚ) := by exact_mod_cast h
    constructor
    · positivity
    · rw [div_le_one hpos]
      exact_mod_cast Nat.le_add_left conn iso
  · norm_num

/-- Floor and ceiling of the text extractor's q value. -/
lemma q_text_bounds (a e : ℕ) :
    3/10 ≤ min (3/10 + (a : ℚ) * (1/10) + (e : ℚ) * (1/20)) 1 ∧
      min (3/10 + (a : ℚ) * (1/10) + (e : ℚ) * (1/20)) 1 ≤ 1 := by
  have h1 : (0 : ℚ) ≤ (a : ℚ) * (1/10) := by positivity
  have h2 : (0 : ℚ) ≤ (e : ℚ) * (1/20) := by positivity
  exact ⟨le_min (by linarith) (by norm_num), min_le_right _ _⟩

/-- Floor and ceiling of the text extractor's rho value. -/
lemma rho_text_bounds (w : ℕ) :
    3/10 ≤ min (3/10 + (w : ℚ) * (1/10)) 1 ∧
      min (3/10 + (w : ℚ) * (1/10)) 1 ≤ 1 := by
  have h1 : (0 : ℚ) ≤ (w : ℚ) * (1/10) := by positivity
  exact ⟨le_min (by linarith) (by norm_num), min_le_right _ _⟩

/-- Floor and ceiling of the text extractor's tau value, over its three
temporal-orientation branches. -/
lemma tau_text_bounds (past present : ℕ) :
    1/10 ≤ (if present < past then min (1/2 + (past : ℚ) * (1/20)) 1
        else if past < present then max (1/2 - (present : ℚ) * (1/20)) (1/10)
        else 1/2) ∧
      (if present < past then min (1/2 + (past : ℚ) * (1/20)) 1
        else if past < present then max (1/2 - (present : ℚ) * (1/20)) (1/10)
        else 1/2) ≤ 1 := by
  have hp : (0 : ℚ) ≤ (past : ℚ) * (1/20) := by positivity
  have hq : (0 : ℚ) ≤ (present : ℚ) * (1/20) := by positivity
  split_ifs with h1 h2
  · exact ⟨le_min (by linarith) (by norm_num), min_le_right _ _⟩
  · exact ⟨le_max_right _ _, max_le (by linarith) (by norm_num)⟩
  · norm_num

/-- One minus a truncated nonnegative quantity stays in the unit interval. -/
lemma one_sub_min_unit (v : ℝ) (hv : 0 ≤ v) :
    0 ≤ 1 - min v 1 ∧ 1 - min v 1 ≤ 1 := by
  have h1 : min v 1 ≤ 1 := min_le_right _ _
  have h2 : 0 ≤ min v 1 := le_min hv zero_le_one
  exact ⟨by linarith, by linarith⟩

end TextBoundLemmas

/-- Counterexample to claim C7.  The athletic strain calculator does not clamp:
a single training record with pathological intensity `2.2` (the dataclass
documents a 0-1 scale) and no injuries yields strain `(2.2 + 0)/2 = 1.1`,
outside the closed unit interval. -/
theorem strain_value_exceeds_unit_interval :
    strain_value [⟨"p1", 8, 11/5⟩] [] = 11/10 ∧
      ¬ strain_value [⟨"p1", 8, 11/5⟩] [] ≤ 1 := by
  have hs : strain_value [⟨"p1", 8, 11/5⟩] [] = 11/10 := by
    simp only [strain_value, List.map_cons, List.map_nil, List.sum_cons, List.sum_nil,
      List.length_cons, List.length_nil, List.filter_nil, if_neg (List.cons_ne_nil _ _)]
    norm_num
  refine ⟨hs, ?_⟩
  rw [hs]
  norm_num

/-- Amended claim C7.  The five text-extractor outputs lie in `[0,1]` for every
input string, and `q_opt` lies in `[0,1]` whenever the profile's saturation
constants km and ki are positive; the athletic Ψ (load coherence) and ρ
(history integration) values lie in `[0,1]` unconditionally, while the strain,
team-protection and recovery-depth values lie in `[0,1]` provided the records
respect their documented scales (intensity in `[0,1]`, readiness scores in
`[0,10]`) — by `strain_value_exceeds_unit_interval`, pathological records
escape the interval. -/
theorem dimension_values_unit_interval :
    (∀ text : String,
      (0 ≤ (extract_pattern_regex text).psi ∧ (extract_pattern_regex text).psi ≤ 1) ∧
      (0 ≤ (extract_pattern_regex text).rho ∧ (extract_pattern_regex text).rho ≤ 1) ∧
      (0 ≤ (extract_pattern_regex text).q ∧ (extract_pattern_regex text).q ≤ 1) ∧
      (0 ≤ (extract_pattern_regex text).f ∧ (extract_pattern_regex text).f ≤ 1) ∧
      (0 ≤ (extract_pattern_regex text).tau ∧ (extract_pattern_regex text).tau ≤ 1)) ∧
    (∀ (p : LensParameters) (q : ℚ), 0 < p.km → 0 < p.ki →
      0 ≤ optimize_q p q ∧ optimize_q p q ≤ 1) ∧
    (∀ training : List TrainingLoad,
      0 ≤ load_coherence_value training ∧ load_coherence_value training ≤ 1) ∧
    (∀ injuries : List InjuryRecord,
      0 ≤ history_integration_value injuries ∧ history_integration_value injuries ≤ 1) ∧
    (∀ (training : List TrainingLoad) (injuries : List InjuryRecord),
      (∀ t ∈ training, 0 ≤ t.intensity ∧ t.intensity ≤ 1) →
      0 ≤ strain_value training injuries ∧ strain_value training injuries ≤ 1) ∧
    (∀ recovery : List RecoveryMetric,
      (∀ r ∈ recovery, 0 ≤ r.reported_readiness ∧ r.reported_readiness ≤ 10 ∧
        0 ≤ r.objective_readiness ∧ r.objective_readiness ≤ 10) →
      (0 ≤ team_protection_value recovery ∧ team_protection_value recovery ≤ 1) ∧
      (0 ≤ recovery_depth_value recovery ∧ recovery_depth_value recovery ≤ 1)) := by
  refine ⟨?_, ?_, ?_, ?_, ?_, ?_⟩
  · intro text
    simp only [extract_pattern_regex]
    exact ⟨⟨by norm_num, by norm_num⟩, ⟨(rho_text_bounds _).1.trans' (by norm_num),
      (rho_text_bounds _).2⟩, ⟨(q_text_bounds _ _).1.trans' (by norm_num),
      (q_text_bounds _ _).2⟩, f_text_bounds _ _,
      ⟨(tau_text_bounds _ _).1.trans' (by norm_num), (tau_text_bounds _ _).2⟩⟩
  · intro p q hkm hki
    unfold optimize_q
    split_ifs with hq
    · norm_num
    · have hq' : 0 < q := not_le.mp hq
      have hsq : (0 : ℚ) ≤ q ^ 2 / p.ki := div_nonneg (sq_nonneg q) (le_of_lt hki)
      have hden : 0 < p.km + q + q ^ 2 / p.ki := by linarith
      constructor
      · exact div_nonneg (le_of_lt hq') (le_of_lt hden)
      · rw [div_le_one hden]
        linarith
  · intro training
    unfold load_coherence_value
    split_ifs with h1
    · norm_num
    · apply one_sub_min_unit
      split_ifs with h2
      · norm_num
      · positivity
  · intro injuries
    unfold history_integration_value
    split_ifs with h
    · norm_num
    · have hlen : 0 < injuries.length := List.length_pos.mpr h
      have hpos : (0 : ℚ) < (injuries.length : ℚ) := by exact_mod_cast hlen
      have hle : (injuries.filter fun i => i.is_recurrence).length ≤ injuries.length :=
        List.length_filter_le _ _
      have hfrac1 : ((injuries.filter fun i => i.is_recurrence).length : ℚ) /
          (injuries.length : ℚ) ≤ 1 := by
        rw [div_le_one hpos]
        exact_mod_cast hle
      have hfrac0 : (0 : ℚ) ≤ ((injuries.filter fun i => i.is_recurrence).length : ℚ) /
          (injuries.length : ℚ) := by positivity
      exact ⟨by linarith, by linarith⟩
  · intro training injuries hint
    unfold strain_value
    split_ifs with h
    · norm_num
    · have hlen : 0 < training.length := List.length_pos.mpr h
      have hpos : (0 : ℚ) < (training.length : ℚ) := by exact_mod_cast hlen
      have hs0 : 0 ≤ (training.map fun t => t.intensity).sum := by
        apply List.sum_nonneg
        intro x hx
        obtain ⟨t, ht, rfl⟩ := List.mem_map.mp hx
        exact (hint t ht).1
      have hs1 : (training.map fun t => t.intensity).sum ≤ (training.length : ℚ) := by
        have := list_sum_le_length_mul (training.map fun t => t.intensity) 1 ?hb
        · simpa [List.length_map] using this
        case hb =>
          intro x hx
          obtain ⟨t, ht, rfl⟩ := List.mem_map.mp hx
          exact (hint t ht).2
      have havg0 : 0 ≤ (training.map fun t => t.intensity).sum / (training.length : ℚ) := by
        positivity
      have havg1 : (training.map fun t => t.intensity).sum / (training.length : ℚ) ≤ 1 := by
        rw [div_le_one hpos]
        exact hs1
      have hmax : (1 : ℚ) ≤ max ((injuries.length : ℚ)) 1 := le_max_right _ _
      have hmaxpos : (0 : ℚ) < max ((injuries.length : ℚ)) 1 := by linarith
      have hsoftle : ((injuries.filter fun i => i.injury_type == "soft_tissue").length : ℚ) ≤
          max ((injuries.length : ℚ)) 1 := by
        have hc : ((injuries.filter fun i => i.injury_type == "soft_tissue").length : ℚ) ≤
            (injuries.length : ℚ) := by
          exact_mod_cast List.length_filter_le _ _
        exact hc.trans (le_max_left _ _)
      have hr0 : 0 ≤ ((injuries.filter fun i => i.injury_type == "soft_tissue").length : ℚ) /
          max ((injuries.length : ℚ)) 1 := by positivity
      have hr1 : ((injuries.filter fun i => i.injury_type == "soft_tissue").length : ℚ) /
          max ((injuries.length : ℚ)) 1 ≤ 1 := by
        rw [div_le_one hmaxpos]
        exact hsoftle
      exact ⟨by linarith, by linarith⟩
  · intro recovery hrec
    constructor
    · unfold team_protection_value
      split_ifs with h
      · norm_num
      · have hlen : 0 < recovery.length := List.length_pos.mpr h
        have hglen : (gapList recovery).length = recovery.length := List.length_map _ _
        have hpos : (0 : ℚ) < ((gapList recovery).length : ℚ) := by
          rw [hglen]
          exact_mod_cast hlen
        have hg0 : 0 ≤ (gapList recovery).sum := by
          apply List.sum_nonneg
          intro x hx
          obtain ⟨r, hr, rfl⟩ := List.mem_map.mp hx
          exact abs_nonneg _
        have hg1 : (gapList recovery).sum ≤ ((gapList recovery).length : ℚ) * 10 := by
          apply list_sum_le_length_mul
          intro x hx
          obtain ⟨r, hr, rfl⟩ := List.mem_map.mp hx
          obtain ⟨ha, hb, hc, hd⟩ := hrec r hr
          rw [abs_le]
          constructor <;> linarith
        have havg0 : 0 ≤ avgGap recovery := by
          unfold avgGap
          positivity
        have havg1 : avgGap recovery ≤ 10 := by
          unfold avgGap
          rw [div_le_iff₀ hpos]
          linarith
        exact ⟨by linarith, by linarith⟩
    · unfold recovery_depth_value
      split_ifs with h
      · norm_num
      · have hlen : 0 < recovery.length := List.length_pos.mpr h
        have hpos : (0 : ℚ) < (recovery.length : ℚ) := by exact_mod_cast hlen
        have ho0 : 0 ≤ (recovery.map fun r => r.objective_readiness).sum := by
          apply List.sum_nonneg
          intro x hx
          obtain ⟨r, hr, rfl⟩ := List.mem_map.mp hx
          exact (hrec r hr).2.2.1
        have ho1 : (recovery.map fun r => r.objective_readiness).sum ≤
            (recovery.length : ℚ) * 10 := by
          have := list_sum_le_length_mul (recovery.map fun r => r.objective_readiness) 10 ?hb
          · simpa [List.length_map] using this
          case hb =>
            intro x hx
            obtain ⟨r, hr, rfl⟩ := List.mem_map.mp hx
            exact (hrec r hr).2.2.2
        have havg0 : 0 ≤ (recovery.map fun r => r.objective_readiness).sum /
            (recovery.length : ℚ) := by positivity
        have havg1 : (recovery.map fun r => r.objective_readiness).sum /
            (recovery.length : ℚ) ≤ 10 := by
          rw [div_le_iff₀ hpos]
          linarith
        constructor
        · positivity
        · rw [div_le_one (by norm_num : (0:ℚ) < 10)]
          linarith

/-- Witness for the amended C7: instances of the hypothesis-bearing conjuncts —
`q_opt` for the default saturation constants at q = 0.35, strain for one
in-range training record, and protection/depth for one in-range recovery
record — plus the text extractor on the empty string. -/
theorem dimension_values_unit_interval_witness :
    (0 ≤ (extract_pattern_regex "").q ∧ (extract_pattern_regex "").q ≤ 1) ∧
    (0 ≤ optimize_q defaultParams (7/20) ∧ optimize_q defaultParams (7/20) ≤ 1) ∧
    (0 ≤ strain_value [⟨"p1", 8, 1/2⟩] [] ∧ strain_value [⟨"p1", 8, 1/2⟩] [] ≤ 1) ∧
    ((0 ≤ team_protection_value [⟨"p1", 8, 6⟩] ∧ team_protection_value [⟨"p1", 8, 6⟩] ≤ 1) ∧
      (0 ≤ recovery_depth_value [⟨"p1", 8, 6⟩] ∧ recovery_depth_value [⟨"p1", 8, 6⟩] ≤ 1)) :=
  ⟨((dimension_values_unit_interval.1 "").2.2.1),
    dimension_values_unit_interval.2.1 defaultParams (7/20)
      (by norm_num [defaultParams]) (by norm_num [defaultParams]),
    dimension_values_unit_interval.2.2.2.2.1 [⟨"p1", 8, 1/2⟩] []
      (by intro t ht; simp at ht; rw [ht]; norm_num),
    dimension_values_unit_interval.2.2.2.2.2 [⟨"p1", 8, 6⟩]
      (by intro r hr; simp at hr; rw [hr]; norm_num)⟩

/-- Claim C10.  For every input string the regex extractor returns q ≥ 0.3,
rho ≥ 0.3, tau ≥ 0.1, psi exactly 0.7 and confidence exactly 0.6: the additive
keyword formulas cannot go below their floors. -/
theorem regex_extractor_floors (text : String) :
    3/10 ≤ (extract_pattern_regex text).q ∧
    3/10 ≤ (extract_pattern_regex text).rho ∧
    1/10 ≤ (extract_pattern_regex text).tau ∧
    (extract_pattern_regex text).psi = 7/10 ∧
    (extract_pattern_regex text).confidence = 3/5 := by
  simp only [extract_pattern_regex]
  refine ⟨(q_text_bounds _ _).1, (rho_text_bounds _).1, (tau_text_bounds _ _).1, ?_, ?_⟩ <;> trivial

/-- The concrete CISD report text of the C9 scenario. -/
def cisdSampleText : String :=
  "All participants reported they were fine and handling the situation normally. No one expressed need for additional support."

set_option maxRecDepth 100000 in
/-- On the sample text the four processing-indicator regexes together match
exactly once ("support"). -/
lemma cisd_sample_processing_count :
    (PROCESSING_INDICATORS.map fun p => countPat p (lowerChars cisdSampleText)).sum = 1 := rfl

set_option maxRecDepth 100000 in
/-- On the sample text the four performance-indicator regexes together match
exactly once ("fine"; "normally" does not match `\bnormal\b`, "handling" does
not match `\bhandled\b`). -/
lemma cisd_sample_performance_count :
    (PERFORMANCE_INDICATORS.map fun p => countPat p (lowerChars cisdSampleText)).sum = 1 := rfl

set_option maxRecDepth 100000 in
/-- Both ratios of the sample text are 1/2: one processing match against one
performance match. -/
lemma cisd_sample_ratios :
    (cisd_analyze cisdSampleText).processing_ratio = 1/2 ∧
      (cisd_analyze cisdSampleText).performance_ratio = 1/2 := by
  constructor
  · simp only [cisd_analyze, cisd_sample_processing_count, cisd_sample_performance_count]
    norm_num
  · simp only [cisd_analyze, cisd_sample_processing_count, cisd_sample_performance_count]
    norm_num

/-- Counterexample to claim C9.  On the cited text the performance ratio is
*not* strictly greater than the processing ratio: the text contains exactly one
performance match ("fine") and one processing match ("support"), so both
ratios are 0.5. -/
theorem cisd_sample_text_performance_not_greater :
    ¬ ((cisd_analyze cisdSampleText).processing_ratio <
        (cisd_analyze cisdSampleText).performance_ratio ∧
      (cisd_analyze cisdSampleText).environmental_concerns = []) := by
  rintro ⟨hlt, -⟩
  rw [cisd_sample_ratios.1, cisd_sample_ratios.2] at hlt
  exact lt_irrefl _ hlt

set_option maxRecDepth 100000 in
/-- Amended claim C9.  On the cited text `CISDAnalyzer.analyze` returns
performance ratio *equal* to the processing ratio (both 0.5 — one performance
match "fine" against one processing match "support"), and an empty
environmental-concerns list (no career/command/mandatory/quiet keyword
occurs). -/
theorem cisd_sample_text_ratios_and_concerns :
    (cisd_analyze cisdSampleText).processing_ratio = 1/2 ∧
    (cisd_analyze cisdSampleText).performance_ratio = 1/2 ∧
    (cisd_analyze cisdSampleText).environmental_concerns = [] :=
  ⟨cisd_sample_ratios.1, cisd_sample_ratios.2, rfl⟩

end RoseGlass
